import Mathlib

/-!
Shallow embedding of the weather-telemetryos digital-signage application.

The TypeScript sources are translated into executable Lean definitions:
  * `formatTemperature`      — src/views/utils/temperatureUtils.ts
  * `fetchPlacePredictions`  — src/views/services/weatherService.ts (autocomplete)
  * `fetchWeatherData`       — src/views/services/weatherService.ts (geocode → current → forecast)
  * `groupByDay`/`dailyForecasts` — the daily aggregation in WeatherCard's loadInitialData
  * `Render`/`VIEW_REGISTRY` — the themed-view dispatch in Render.tsx / views/index.tsx
  * `handleSave`             — the Settings submit handler in Settings.tsx
  * the weather background worker's schedule — src/workers/weather_service.tsx

Asynchronous effects (proxied fetches, store writes, callbacks) are modelled by
passing an explicit environment of fetch outcomes and collecting the observable
events (requests issued, callback invocations in order, store writes) in a
result record.  JavaScript numbers that carry temperatures are modelled as
rationals; `Math.round` becomes `⌊x + 1/2⌋` (JS rounds ties toward +∞).
-/

namespace WeatherApp

/-- JavaScript `Math.round` on a rational: floor of `x + 1/2` (ties toward +∞). -/
def jround (q : ℚ) : ℤ := ⌊q + 1/2⌋

/-- `formatTemperature` from src/views/utils/temperatureUtils.ts.
JS `null`/`undefined` are both modelled by `none`.  The source returns
the template string made of `Math.round(temp)` (when present, otherwise "--"),
the degree sign, and "F" when `scale === "Fahrenheit"`, else "C". -/
def formatTemperature (temp : Option ℚ) (scale : String) : String :=
  match temp with
  | none => "--°" ++ (if scale = "Fahrenheit" then "F" else "C")
  | some t => toString (jround t) ++ "°" ++ (if scale = "Fahrenheit" then "F" else "C")

/-- Outcome of one `proxy().fetch` call (with its subsequent `.json()` parse):
either the fetch/parse throws, or a response arrives with its `ok` flag,
HTTP status and parsed body. -/
inductive FetchOutcome (α : Type) where
  | throwErr : FetchOutcome α
  | respond (ok : Bool) (status : Nat) (body : α) : FetchOutcome α
  deriving DecidableEq

/-- Google Places autocomplete prediction (src/views/types.ts), with
`structured_formatting` flattened into its two fields. -/
structure PlacePrediction where
  place_id : String
  description : String
  main_text : String
  secondary_text : String
  deriving DecidableEq

/-- Parsed body of the autocomplete response: JS `data.status` and
`data.predictions` (absent/null field modelled by `none`; recall that in JS an
empty array is truthy, so `some []` passes the `data.predictions` guard). -/
structure PlacesBody where
  status : String
  predictions : Option (List PlacePrediction)
  deriving DecidableEq

/-- Environment of one `fetchPlacePredictions` run: the configured API key
(`import.meta.env.VITE_GOOGLE_PLACES_API_KEY`, `none` when unset) and the
outcome of the single autocomplete fetch. -/
structure PlacesEnv where
  apiKey : Option String
  response : FetchOutcome PlacesBody
  deriving DecidableEq

/-- Observable events of one `fetchPlacePredictions` run: the arguments of the
`onSuccess` invocations in order, the number of `onError` invocations, and the
inputs for which an autocomplete request was issued. -/
structure PlacesEvents where
  successCalls : List (List PlacePrediction)
  errorCalls : Nat
  requests : List String
  deriving DecidableEq

/-- `fetchPlacePredictions` from src/views/services/weatherService.ts.
Control flow of the source:
  * `!input || input.length < 2` → `onSuccess([])`, no request;
  * missing API key → log and plain `return` (no callback at all);
  * fetch or parse throws, or `!response.ok` (which throws into the catch) →
    catch handler: `onSuccess([])` then `onError(err)`;
  * `data.status === "OK" && data.predictions` → `onSuccess(data.predictions)`;
  * `data.status === "ZERO_RESULTS"` → `onSuccess([])`;
  * any other status → log and `onSuccess([])`. -/
def fetchPlacePredictions (input : String) (env : PlacesEnv) : PlacesEvents :=
  if input = "" ∨ input.length < 2 then
    ⟨[[]], 0, []⟩
  else
    match env.apiKey with
    | none => ⟨[], 0, []⟩
    | some _ =>
      match env.response with
      | .throwErr => ⟨[[]], 1, [input]⟩
      | .respond ok _ body =>
        if ok = false then ⟨[[]], 1, [input]⟩
        else
          match body.predictions with
          | some ps =>
            if body.status = "OK" then ⟨[ps], 0, [input]⟩
            else if body.status = "ZERO_RESULTS" then ⟨[[]], 0, [input]⟩
            else ⟨[[]], 0, [input]⟩
          | none =>
            if body.status = "ZERO_RESULTS" then ⟨[[]], 0, [input]⟩
            else ⟨[[]], 0, [input]⟩

/-- Spec-side description of the list `fetchPlacePredictions` emits for a
given fetch outcome: the platform's prediction list exactly when the response
is 2xx with status "OK" and a present predictions field, otherwise empty. -/
def placesEmittedSpec (r : FetchOutcome PlacesBody) : List PlacePrediction :=
  match r with
  | .respond true _ body =>
    match body.predictions with
    | some ps => if body.status = "OK" then ps else []
    | none => []
  | _ => []

/-- One geocoding result entry, as destructured by
`const { lat, lon, name, country } = geoData[0]` in `fetchWeatherData`.
Coordinates are modelled as integers (their exact numeric type is irrelevant
to the claims; they only flow into the follow-up request URLs). -/
structure GeoEntry where
  lat : Int
  lon : Int
  name : String
  country : String
  deriving DecidableEq

/-- A proxied request issued by `fetchWeatherData`, with the query data the
source interpolates into the URL (API key elided). -/
inductive WRequest where
  | geocode (q : String)
  | current (lat lon : Int) (units lang : String)
  | forecast (lat lon : Int) (units lang : String)
  deriving DecidableEq

/-- Environment of one `fetchWeatherData` run: the OpenWeatherMap API key and
the outcomes of the three proxied fetches in chain order.  The current and
forecast bodies are opaque payloads, modelled as strings. -/
structure WeatherEnv where
  apiKey : Option String
  geoResponse : FetchOutcome (List GeoEntry)
  weatherResponse : FetchOutcome String
  forecastResponse : FetchOutcome String
  deriving DecidableEq

/-- Observable events of one `fetchWeatherData` run: requests issued, the
arguments of the `onWeatherData` / `onForecastData` / `onError` invocations in
order, and the `store().instance.set` writes in order. -/
structure WeatherEvents where
  requests : List WRequest
  weatherCalls : List (Option String)
  forecastCalls : List (Option String)
  errorCalls : List String
  stored : List (String × String)
  deriving DecidableEq

/-- The catch handler at the end of `fetchWeatherData`: it appends
`onWeatherData(null)`, `onForecastData(null)` and `onError(err)` to whatever
already happened in the try block. -/
def weatherCatch (ev : WeatherEvents) (msg : String) : WeatherEvents :=
  ⟨ev.requests, ev.weatherCalls ++ [none], ev.forecastCalls ++ [none],
    ev.errorCalls ++ [msg], ev.stored⟩

/-- `fetchWeatherData` from src/views/services/weatherService.ts.
The chain in the source: missing API key → log and return (no events);
geocode fetch (non-2xx throws `Geocoding HTTP <status>`); empty geocode list
throws `Location not found`; current-conditions fetch with
`units = scale === "Fahrenheit" ? "imperial" : "metric"` (non-2xx throws
`Weather HTTP <status>`); on success `onWeatherData(data)` then
`store().instance.set("currentWeather", data)`; forecast fetch (non-2xx throws
`Forecast HTTP <status>`); on success `onForecastData(forecast)` then
`store().instance.set("forecastWeather", forecast)`.  Every throw lands in
`weatherCatch`.  Store writes are modelled as succeeding; a JSON-parse failure
is folded into `FetchOutcome.throwErr` of the corresponding fetch. -/
def fetchWeatherData (cityName scale language : String) (env : WeatherEnv) :
    WeatherEvents :=
  match env.apiKey with
  | none => ⟨[], [], [], [], []⟩
  | some _ =>
    let ev0 : WeatherEvents := ⟨[.geocode cityName], [], [], [], []⟩
    match env.geoResponse with
    | .throwErr => weatherCatch ev0 "network error"
    | .respond gok gstatus geoData =>
      if gok = false then weatherCatch ev0 ("Geocoding HTTP " ++ toString gstatus)
      else
        match geoData with
        | [] => weatherCatch ev0 "Location not found"
        | entry :: _ =>
          let units := if scale = "Fahrenheit" then "imperial" else "metric"
          let ev1 : WeatherEvents :=
            ⟨ev0.requests ++ [.current entry.lat entry.lon units language],
              [], [], [], []⟩
          match env.weatherResponse with
          | .throwErr => weatherCatch ev1 "network error"
          | .respond wok wstatus wdata =>
            if wok = false then weatherCatch ev1 ("Weather HTTP " ++ toString wstatus)
            else
              let ev2 : WeatherEvents :=
                ⟨ev1.requests, [some wdata], [], [], [("currentWeather", wdata)]⟩
              let ev3 : WeatherEvents :=
                ⟨ev2.requests ++ [.forecast entry.lat entry.lon units language],
                  ev2.weatherCalls, [], [], ev2.stored⟩
              match env.forecastResponse with
              | .throwErr => weatherCatch ev3 "network error"
              | .respond fok fstatus fdata =>
                if fok = false then
                  weatherCatch ev3 ("Forecast HTTP " ++ toString fstatus)
                else
                  ⟨ev3.requests, ev3.weatherCalls, [some fdata], ev3.errorCalls,
                    ev3.stored ++ [("forecastWeather", fdata)]⟩

/-- A concrete environment where geocoding and the current-conditions fetch
succeed but the forecast fetch returns a non-2xx response. -/
def envForecastFail : WeatherEnv :=
  ⟨some "k", .respond true 200 [⟨51, 71, "Astana", "KZ"⟩],
    .respond true 200 "currentData", .respond false 500 "errorBody"⟩

/-- The seven theme display components of src/views/index.tsx. -/
inductive ThemeComponent where
  | flamingo | sky | urban | watermelon | neapolitan | meadow | forest
  deriving DecidableEq

/-- `VIEW_REGISTRY` from src/views/index.tsx, as the JS object lookup it is
used with: a string key maps to its component, any other key to `undefined`
(`none`). -/
def VIEW_REGISTRY (key : String) : Option ThemeComponent :=
  if key = "flamingo" then some .flamingo
  else if key = "sky" then some .sky
  else if key = "urban" then some .urban
  else if key = "watermelon" then some .watermelon
  else if key = "neapolitan" then some .neapolitan
  else if key = "meadow" then some .meadow
  else if key = "forest" then some .forest
  else none

/-- The runtime shape of a stored `viewConfig`: `selectedView` is an arbitrary
string at runtime (the TypeScript union type is not enforced on values read
back from storage). -/
structure ViewConfigRT where
  selectedView : String
  deriving DecidableEq

/-- What the Render component produces for a given config state. -/
inductive RenderOutput where
  | placeholder
  | component (c : ThemeComponent)
  | crash
  deriving DecidableEq

/-- `Render` from Render.tsx: `if (!config) return <div>Please configure…`;
otherwise `const SelectedView = VIEW_REGISTRY[config.selectedView]` and
`return <SelectedView />`.  When the registry lookup is `undefined`, React
throws on rendering `<SelectedView />`; that outcome is `crash`. -/
def Render (config : Option ViewConfigRT) : RenderOutput :=
  match config with
  | none => .placeholder
  | some cfg =>
    match VIEW_REGISTRY cfg.selectedView with
    | some c => .component c
    | none => .crash

/-- Outcome of the `store().instance.set("viewConfig", config)` call in
`handleSave`: it resolves to `true`, resolves to `false` (the handler then
throws "Failed to save configuration"), or itself throws. -/
inductive VcOutcome where
  | retTrue | retFalse | throwErr
  deriving DecidableEq

/-- Outcome of one of the three later `store().instance.set` calls in
`handleSave`; their boolean return value is ignored by the source, so only
"resolves" vs "throws" is observable. -/
inductive SetOutcome where
  | ok | throwErr
  deriving DecidableEq

/-- Environment of one `handleSave` run: the outcome of each of the four
store writes, in the order the source issues them. -/
structure SaveEnv where
  viewConfigSet : VcOutcome
  dateTimeSet : SetOutcome
  scaleSet : SetOutcome
  languageSet : SetOutcome
  deriving DecidableEq

/-- The four instance-store keys `handleSave` writes. -/
inductive SaveKey where
  | viewConfig | dateTimeSettings | scaleSettings | languageSettings
  deriving DecidableEq

/-- Observable outcome of one `handleSave` run: the keys successfully written
in order, whether `setError` was called with a message, and whether the
`finally` block cleared the loading flag. -/
structure SaveResult where
  written : List SaveKey
  errorShown : Bool
  loadingCleared : Bool
  deriving DecidableEq

/-- `handleSave` from src/views/Settings.tsx.  The try block writes
`viewConfig` (throwing if the set resolves `false`), then `dateTimeSettings`,
then `scaleSettings`, then `languageSettings`; the catch sets the error
banner; the finally clears the loading flag.  The payload values (formatted
date/time strings etc.) are elided — the claims concern only key order and
failure behaviour. -/
def handleSave (env : SaveEnv) : SaveResult :=
  match env.viewConfigSet with
  | .throwErr => ⟨[], true, true⟩
  | .retFalse => ⟨[], true, true⟩
  | .retTrue =>
    match env.dateTimeSet with
    | .throwErr => ⟨[.viewConfig], true, true⟩
    | .ok =>
      match env.scaleSet with
      | .throwErr => ⟨[.viewConfig, .dateTimeSettings], true, true⟩
      | .ok =>
        match env.languageSet with
        | .throwErr => ⟨[.viewConfig, .dateTimeSettings, .scaleSettings], true, true⟩
        | .ok =>
          ⟨[.viewConfig, .dateTimeSettings, .scaleSettings, .languageSettings],
            false, true⟩

/-- The fixed key order of the four writes, per the spec's reading of the
source. -/
def saveOrderSpec : List SaveKey :=
  [.viewConfig, .dateTimeSettings, .scaleSettings, .languageSettings]

/-- Spec-side description of the first failing write, if any. -/
def firstFailure (env : SaveEnv) : Option SaveKey :=
  if env.viewConfigSet ≠ .retTrue then some .viewConfig
  else if env.dateTimeSet = .throwErr then some .dateTimeSettings
  else if env.scaleSet = .throwErr then some .scaleSettings
  else if env.languageSet = .throwErr then some .languageSettings
  else none

/-- Spec-side description of the keys left written: everything strictly before
the first failing key in `saveOrderSpec`, or all four when nothing fails. -/
def saveWrittenSpec (env : SaveEnv) : List SaveKey :=
  match firstFailure env with
  | none => saveOrderSpec
  | some k => saveOrderSpec.takeWhile (fun x => x ≠ k)

/-- The two fetch-and-store actions of src/workers/weather_service.tsx:
`getCurrentWeather` and `getForecast`. -/
inductive WorkerFetch where
  | currentFetch | forecastFetch
  deriving DecidableEq

/-- The device-store key each worker fetch writes its result to. -/
def workerDeviceKey : WorkerFetch → String
  | .currentFetch => "currentWeather"
  | .forecastFetch => "weatherForecast"

/-- The fetches `openWeatherMapWorker` performs immediately on start:
`await getCurrentWeather(); await getForecast();`. -/
def workerStartFetches : List WorkerFetch := [.currentFetch, .forecastFetch]

/-- The fetches the `setInterval` callback performs on each tick:
only `await getCurrentWeather();`. -/
def workerIntervalFetches : List WorkerFetch := [.currentFetch]

/-- The interval passed to `setInterval`: `30 * 60 * 1000` milliseconds. -/
def workerIntervalMs : Nat := 30 * 60 * 1000

/-- The fetches performed after the start sequence and `n` interval ticks. -/
def workerTrace : Nat → List WorkerFetch
  | 0 => workerStartFetches
  | n + 1 => workerTrace n ++ workerIntervalFetches

/-- One 3-hourly forecast sample of the `forecast.list` array consumed by
WeatherCard's `loadInitialData`: unix seconds `dt`, `main.temp`, and the first
`weather` entry's `main`/`description`. -/
structure FSample where
  dt : Nat
  temp : ℚ
  wMain : String
  wDesc : String
  deriving DecidableEq

/-- The grouping key of a sample:
`new Date(item.dt * 1000).toISOString().split("T")[0]` identifies the UTC
calendar day, i.e. `dt / 86400` for the non-negative unix timestamps forecast
samples carry. -/
def dayKey (s : FSample) : Nat := s.dt / 86400

/-- One bucket of `dailyData`: its day key, the temps pushed in order, and the
first-encountered sample's weather condition. -/
structure DayGroup where
  key : Nat
  temps : List ℚ
  wMain : String
  wDesc : String
  deriving DecidableEq

/-- One iteration of `forecast.list.forEach`: a fresh day key appends a new
bucket at the end (JS objects keep string-key insertion order), an existing
key pushes the temp onto that bucket. -/
def insertSample (groups : List DayGroup) (s : FSample) : List DayGroup :=
  match groups with
  | [] => [⟨dayKey s, [s.temp], s.wMain, s.wDesc⟩]
  | g :: rest =>
    if g.key = dayKey s then
      ⟨g.key, g.temps ++ [s.temp], g.wMain, g.wDesc⟩ :: rest
    else
      g :: insertSample rest s

/-- The `dailyData` accumulation over the whole sample list. -/
def groupByDay (l : List FSample) : List DayGroup := l.foldl insertSample []

/-- `Math.max(...day.temps)` (every bucket holds at least one temp, so the
`[]` case is unreachable). -/
def maxTemps : List ℚ → ℚ
  | [] => 0
  | t :: ts => ts.foldl max t

/-- `Math.min(...day.temps)` (the `[]` case is unreachable). -/
def minTemps : List ℚ → ℚ
  | [] => 0
  | t :: ts => ts.foldl min t

/-- One entry of the `days` array: `hi = Math.round(Math.max(...temps))`,
`lo = Math.round(Math.min(...temps))`, plus the representative weather
condition (the locale-formatted day name and icon are elided). -/
structure DaySummary where
  hi : ℤ
  lo : ℤ
  wMain : String
  wDesc : String
  deriving DecidableEq

/-- The `.map` body building one summary from one bucket. -/
def summarize (g : DayGroup) : DaySummary :=
  ⟨jround (maxTemps g.temps), jround (minTemps g.temps), g.wMain, g.wDesc⟩

/-- `Object.values(dailyData).slice(1, 5).map(...)`: skip the first
encountered group, take up to the next 4 in encounter order, summarize each. -/
def dailyForecasts (l : List FSample) : List DaySummary :=
  (((groupByDay l).drop 1).take 4).map summarize

/-- Spec-side first-encounter deduplication step: append a key if unseen. -/
def insertKey (ks : List Nat) (a : Nat) : List Nat :=
  if a ∈ ks then ks else ks ++ [a]

/-- Spec-side description of the distinct day keys in first-encounter order. -/
def firstOccur (xs : List Nat) : List Nat := xs.foldl insertKey []

/-- Three concrete samples: one on UTC day 0, two on UTC day 1. -/
def demoSamples : List FSample :=
  [⟨3600, 10, "Clouds", "few clouds"⟩,
   ⟨90000, 5, "Rain", "light rain"⟩,
   ⟨97200, 7, "Rain", "moderate rain"⟩]

/-- C6: for every input string shorter than 2 characters (including the empty
string), `fetchPlacePredictions` invokes `onSuccess` once with the empty
prediction list and issues no network request. -/
theorem short_input_returns_empty (input : String) (env : PlacesEnv)
    (h : input.length < 2) :
    fetchPlacePredictions input env = ⟨[[]], 0, []⟩ := by
  unfold fetchPlacePredictions
  rw [if_pos (Or.inr h)]

theorem short_input_returns_empty_witness :
    fetchPlacePredictions "a" ⟨none, .throwErr⟩ = ⟨[[]], 0, []⟩ :=
  short_input_returns_empty "a" ⟨none, .throwErr⟩ (by decide)

/-- C7: for every input of length ≥ 2 with the API key configured,
`fetchPlacePredictions` never throws to its caller and invokes `onSuccess`
exactly once, with the list described by `placesEmittedSpec`: the platform's
prediction list (in platform order) on a 2xx "OK" response carrying
predictions, and the empty list on "ZERO_RESULTS", any other status, a non-2xx
response, or a network/parse failure. -/
theorem predictions_always_single_success (input : String) (env : PlacesEnv)
    (key : String) (hlen : 2 ≤ input.length) (hkey : env.apiKey = some key) :
    (fetchPlacePredictions input env).successCalls = [placesEmittedSpec env.response] := by
  have hne : ¬ (input = "" ∨ input.length < 2) := by
    rintro (h1 | h2)
    · rw [h1] at hlen; simp at hlen
    · omega
  unfold fetchPlacePredictions
  rw [if_neg hne, hkey]
  cases env.response with
  | throwErr => rfl
  | respond ok st body =>
    cases ok with
    | false => rfl
    | true =>
      cases hps : body.predictions with
      | none =>
        simp only [placesEmittedSpec, hps]
        by_cases hz : body.status = "ZERO_RESULTS" <;> simp [hz]
      | some ps =>
        simp only [placesEmittedSpec, hps]
        by_cases hok : body.status = "OK"
        · simp [hok]
        · by_cases hz : body.status = "ZERO_RESULTS" <;> simp [hok, hz]

theorem predictions_always_single_success_witness :
    (fetchPlacePredictions "Asta"
        ⟨some "k", .respond true 200 ⟨"OK", some []⟩⟩).successCalls
      = [placesEmittedSpec (.respond true 200 ⟨"OK", some []⟩)] :=
  predictions_always_single_success "Asta"
    ⟨some "k", .respond true 200 ⟨"OK", some []⟩⟩ "k" (by decide) rfl

/-- C10: when the Places API key is not configured, `fetchPlacePredictions`
with any input of length ≥ 2 returns without invoking `onSuccess` or
`onError` and without issuing a request. -/
theorem no_api_key_silent_return (input : String) (env : PlacesEnv)
    (hlen : 2 ≤ input.length) (hkey : env.apiKey = none) :
    fetchPlacePredictions input env = ⟨[], 0, []⟩ := by
  have hne : ¬ (input = "" ∨ input.length < 2) := by
    rintro (h1 | h2)
    · rw [h1] at hlen; simp at hlen
    · omega
  unfold fetchPlacePredictions
  rw [if_neg hne, hkey]

theorem no_api_key_silent_return_witness :
    fetchPlacePredictions "Asta" ⟨none, .throwErr⟩ = ⟨[], 0, []⟩ :=
  no_api_key_silent_return "Asta" ⟨none, .throwErr⟩ (by decide) rfl

/-- C4: with the API key configured, a 2xx geocoding response whose body is
the empty list makes `fetchWeatherData` deliver `null` to both the
current-weather and the forecast callbacks, report "Location not found" via
`onError`, and issue no request beyond the geocode one (in particular the
current-conditions request is never issued), storing nothing. -/
theorem geocode_empty_aborts_chain (city scale lang key : String)
    (env : WeatherEnv) (st : Nat)
    (hkey : env.apiKey = some key)
    (hgeo : env.geoResponse = .respond true st []) :
    fetchWeatherData city scale lang env =
      ⟨[.geocode city], [none], [none], ["Location not found"], []⟩ := by
  unfold fetchWeatherData
  rw [hkey, hgeo]
  exact rfl

theorem geocode_empty_aborts_chain_witness :
    fetchWeatherData "Astana" "Celsius" "en"
        ⟨some "k", .respond true 200 [], .throwErr, .throwErr⟩ =
      ⟨[.geocode "Astana"], [none], [none], ["Location not found"], []⟩ :=
  geocode_empty_aborts_chain "Astana" "Celsius" "en" "k"
    ⟨some "k", .respond true 200 [], .throwErr, .throwErr⟩ 200 rfl rfl

/-- C1 is false on the code: with geocode and current-conditions succeeding
and the forecast fetch non-2xx, `onWeatherData` is invoked a second time with
`null` by the catch handler, so the final value it observes is `null`, not the
fetched current-conditions data. -/
theorem forecast_failure_weather_renulled_counterexample :
    (fetchWeatherData "Astana" "Celsius" "en" envForecastFail).weatherCalls
        = [some "currentData", none] ∧
    (fetchWeatherData "Astana" "Celsius" "en" envForecastFail).weatherCalls.getLast?
        ≠ some (some "currentData") := by
  constructor
  · rfl
  · decide

/-- C1 amended: when geocode and current-conditions succeed and the forecast
fetch returns non-2xx, the current-conditions data is first delivered to
`onWeatherData` and persisted under "currentWeather" (the persisted value is
not rolled back and no forecast is stored), but the catch handler then invokes
`onWeatherData` again with `null` — so the final value observed by
`onWeatherData` is `null`; `onForecastData` receives `null` and the error is
reported via `onError`. -/
theorem forecast_failure_amended (city scale lang key wdata fbody : String)
    (env : WeatherEnv) (e : GeoEntry) (rest : List GeoEntry)
    (gst wst fstat : Nat)
    (hkey : env.apiKey = some key)
    (hgeo : env.geoResponse = .respond true gst (e :: rest))
    (hw : env.weatherResponse = .respond true wst wdata)
    (hf : env.forecastResponse = .respond false fstat fbody) :
    (fetchWeatherData city scale lang env).weatherCalls = [some wdata, none] ∧
    (fetchWeatherData city scale lang env).forecastCalls = [none] ∧
    (fetchWeatherData city scale lang env).stored = [("currentWeather", wdata)] ∧
    (fetchWeatherData city scale lang env).errorCalls
        = ["Forecast HTTP " ++ toString fstat] := by
  unfold fetchWeatherData
  rw [hkey, hgeo, hw, hf]
  exact ⟨rfl, rfl, rfl, rfl⟩

theorem forecast_failure_amended_witness :
    (fetchWeatherData "Astana" "Celsius" "en" envForecastFail).weatherCalls
        = [some "currentData", none] ∧
    (fetchWeatherData "Astana" "Celsius" "en" envForecastFail).forecastCalls
        = [none] ∧
    (fetchWeatherData "Astana" "Celsius" "en" envForecastFail).stored
        = [("currentWeather", "currentData")] ∧
    (fetchWeatherData "Astana" "Celsius" "en" envForecastFail).errorCalls
        = ["Forecast HTTP " ++ toString 500] :=
  forecast_failure_amended "Astana" "Celsius" "en" "k" "currentData" "errorBody"
    envForecastFail ⟨51, 71, "Astana", "KZ"⟩ [] 200 200 500 rfl rfl rfl rfl

/-- C2 is false on the code: a viewConfig whose `selectedView` is not one of
the 7 registry keys makes `Render` dereference an undefined component and
crash instead of showing the "please configure" placeholder. -/
theorem render_unknown_theme_counterexample :
    Render (some ⟨"galaxy"⟩) = .crash ∧ Render (some ⟨"galaxy"⟩) ≠ .placeholder := by
  decide

/-- C2 amended: an absent/null viewConfig yields the "please configure"
placeholder; a viewConfig whose `selectedView` is one of the 7 registry keys
renders that registry component; a viewConfig whose `selectedView` is outside
the registry crashes (undefined component), it does not fall back to the
placeholder. -/
theorem render_registry_amended :
    Render none = .placeholder ∧
    (∀ cfg : ViewConfigRT, ∀ c : ThemeComponent,
      VIEW_REGISTRY cfg.selectedView = some c → Render (some cfg) = .component c) ∧
    (∀ cfg : ViewConfigRT,
      VIEW_REGISTRY cfg.selectedView = none → Render (some cfg) = .crash) := by
  refine ⟨rfl, ?_, ?_⟩
  · intro cfg c h
    simp [Render, h]
  · intro cfg h
    simp [Render, h]

theorem render_registry_amended_witness :
    Render (some ⟨"sky"⟩) = .component .sky ∧ Render (some ⟨"galaxy"⟩) = .crash :=
  ⟨render_registry_amended.2.1 ⟨"sky"⟩ .sky (by decide),
    render_registry_amended.2.2 ⟨"galaxy"⟩ (by decide)⟩

/-- C9: `handleSave` writes its four store keys in the fixed order viewConfig,
dateTimeSettings, scaleSettings, languageSettings and is not atomic — on the
first failing write (a throw, or `viewConfig`'s set resolving `false`) every
earlier key keeps its new value and every later key is left unwritten — the
error banner is shown exactly when some write failed, and the loading flag is
cleared in all outcomes. -/
theorem handleSave_write_order (env : SaveEnv) :
    (handleSave env).loadingCleared = true ∧
    (handleSave env).written = saveWrittenSpec env ∧
    (handleSave env).errorShown = (firstFailure env).isSome := by
  obtain ⟨vc, dt, sc, lg⟩ := env
  cases vc <;> cases dt <;> cases sc <;> cases lg <;>
    exact ⟨rfl, rfl, rfl⟩

/-- C5 is false on the code: the 30-minute interval tick does not repeat the
start-up fetch logic — the forecast fetch is absent from the tick. -/
theorem worker_tick_counterexample :
    WorkerFetch.forecastFetch ∉ workerIntervalFetches ∧
    workerIntervalFetches ≠ workerStartFetches := by
  decide

/-- C5 amended: the weather worker fetches both current conditions (stored to
device key "currentWeather") and the forecast (stored to device key
"weatherForecast") once on start, and then at every fixed 30-minute tick
refetches only the current conditions — after `n` ticks the trace holds
`n + 1` current-conditions fetches and exactly one forecast fetch. -/
theorem worker_schedule_amended (n : Nat) :
    (workerTrace n).count WorkerFetch.currentFetch = n + 1 ∧
    (workerTrace n).count WorkerFetch.forecastFetch = 1 ∧
    workerIntervalMs = 1800000 ∧
    workerDeviceKey .currentFetch = "currentWeather" ∧
    workerDeviceKey .forecastFetch = "weatherForecast" := by
  refine ⟨?_, ?_, rfl, rfl, rfl⟩ <;>
  · induction n with
    | zero => rfl
    | succ m ih =>
      simp only [workerTrace, List.count_append, ih]
      rfl

/-- C8: `formatTemperature` renders a missing (null/undefined) temperature as
"--°F" when the scale is "Fahrenheit" and "--°C" for any other scale, and a
present temperature as its value rounded to the nearest integer followed by
"°F"/"°C" per the scale; in particular
`formatTemperature null "Celsius" = "--°C"` and
`formatTemperature 21.6 "Fahrenheit" = "22°F"`. -/
theorem formatTemperature_spec (t : ℚ) (scale : String) :
    formatTemperature none scale
        = (if scale = "Fahrenheit" then "--°F" else "--°C") ∧
    formatTemperature (some t) scale
        = toString (jround t) ++ (if scale = "Fahrenheit" then "°F" else "°C") ∧
    formatTemperature none "Celsius" = "--°C" ∧
    formatTemperature (some (108/5 : ℚ)) "Fahrenheit" = "22°F" := by
  refine ⟨?_, ?_, rfl, ?_⟩
  · show ("--°" ++ if scale = "Fahrenheit" then "F" else "C") = _
    by_cases hs : scale = "Fahrenheit"
    · rw [if_pos hs, if_pos hs]; decide
    · rw [if_neg hs, if_neg hs]; decide
  · show (toString (jround t) ++ "°" ++ if scale = "Fahrenheit" then "F" else "C") = _
    by_cases hs : scale = "Fahrenheit"
    · rw [if_pos hs, if_pos hs, String.append_assoc]
      congr 1
    · rw [if_neg hs, if_neg hs, String.append_assoc]
      congr 1
  · show toString (jround (108/5 : ℚ)) ++ "°" ++ "F" = "22°F"
    norm_num [jround]
    rfl

theorem map_key_insertSample (gs : List DayGroup) (s : FSample) :
    (insertSample gs s).map DayGroup.key
      = insertKey (gs.map DayGroup.key) (dayKey s) := by
  induction gs with
  | nil => simp [insertSample, insertKey]
  | cons g rest ih =>
    by_cases h : g.key = dayKey s
    · simp [insertSample, insertKey, h]
    · by_cases hm : dayKey s ∈ rest.map DayGroup.key <;>
        simp [insertSample, insertKey, h, hm, ih, Ne.symm h]

theorem foldl_insertSample_keys (l : List FSample) (acc : List DayGroup) :
    (l.foldl insertSample acc).map DayGroup.key
      = (l.map dayKey).foldl insertKey (acc.map DayGroup.key) := by
  induction l generalizing acc with
  | nil => rfl
  | cons s l ih =>
    simp only [List.foldl_cons, List.map_cons]
    rw [ih, map_key_insertSample]

theorem groupByDay_keys (l : List FSample) :
    (groupByDay l).map DayGroup.key = firstOccur (l.map dayKey) :=
  foldl_insertSample_keys l []

theorem mem_insertKey (ks : List Nat) (a k : Nat) :
    k ∈ insertKey ks a ↔ k ∈ ks ∨ k = a := by
  unfold insertKey
  by_cases h : a ∈ ks
  · rw [if_pos h]
    constructor
    · exact Or.inl
    · rintro (hk | rfl)
      · exact hk
      · exact h
  · rw [if_neg h]
    simp [List.mem_append]

theorem nodup_insertKey (ks : List Nat) (a : Nat) (h : ks.Nodup) :
    (insertKey ks a).Nodup := by
  unfold insertKey
  by_cases hm : a ∈ ks
  · rwa [if_pos hm]
  · rw [if_neg hm]
    simp [List.nodup_append, h, hm]

theorem mem_foldl_insertKey (xs : List Nat) (acc : List Nat) (k : Nat) :
    k ∈ xs.foldl insertKey acc ↔ k ∈ acc ∨ k ∈ xs := by
  induction xs generalizing acc with
  | nil => simp
  | cons a xs ih =>
    simp only [List.foldl_cons, ih, mem_insertKey, List.mem_cons]
    tauto

theorem mem_firstOccur (xs : List Nat) (k : Nat) :
    k ∈ firstOccur xs ↔ k ∈ xs := by
  unfold firstOccur
  rw [mem_foldl_insertKey]
  simp

theorem nodup_foldl_insertKey (xs : List Nat) (acc : List Nat) (h : acc.Nodup) :
    (xs.foldl insertKey acc).Nodup := by
  induction xs generalizing acc with
  | nil => exact h
  | cons a xs ih => exact ih _ (nodup_insertKey _ _ h)

theorem nodup_firstOccur (xs : List Nat) : (firstOccur xs).Nodup :=
  nodup_foldl_insertKey xs [] List.nodup_nil

theorem insertSample_mem_description (gs : List DayGroup) (s : FSample)
    (hnd : (gs.map DayGroup.key).Nodup) :
    ∀ g' ∈ insertSample gs s,
      (∃ g ∈ gs, g.key = dayKey s ∧
        g' = ⟨g.key, g.temps ++ [s.temp], g.wMain, g.wDesc⟩) ∨
      (g' = ⟨dayKey s, [s.temp], s.wMain, s.wDesc⟩ ∧
        dayKey s ∉ gs.map DayGroup.key) ∨
      (g' ∈ gs ∧ g'.key ≠ dayKey s) := by
  induction gs with
  | nil =>
    intro g' hg'
    simp only [insertSample, List.mem_singleton] at hg'
    subst hg'
    exact Or.inr (Or.inl ⟨rfl, by simp⟩)
  | cons g rest ih =>
    intro g' hg'
    by_cases h : g.key = dayKey s
    · simp only [insertSample, if_pos h, List.mem_cons] at hg'
      rcases hg' with rfl | hmem
      · exact Or.inl ⟨g, List.mem_cons_self g rest, h, rfl⟩
      · refine Or.inr (Or.inr ⟨List.mem_cons_of_mem g hmem, ?_⟩)
        intro hk
        have : g'.key ∈ rest.map DayGroup.key := List.mem_map_of_mem _ hmem
        rw [hk, ← h] at this
        exact (List.nodup_cons.mp hnd).1 this
    · simp only [insertSample, if_neg h, List.mem_cons] at hg'
      rcases hg' with rfl | hmem
      · exact Or.inr (Or.inr ⟨List.mem_cons_self g' rest, h⟩)
      · rcases ih (List.nodup_cons.mp (by simpa using hnd)).2 g' hmem with
          ⟨gg, hggmem, hggkey, rfl⟩ | ⟨rfl, hnotin⟩ | ⟨hggmem, hne⟩
        · exact Or.inl ⟨gg, List.mem_cons_of_mem g hggmem, hggkey, rfl⟩
        · refine Or.inr (Or.inl ⟨rfl, ?_⟩)
          simp only [List.map_cons, List.mem_cons]
          rintro (hk | hk)
          · exact h hk.symm
          · exact hnotin hk
        · exact Or.inr (Or.inr ⟨List.mem_cons_of_mem g hggmem, hne⟩)

theorem groupByDay_append (l : List FSample) (s : FSample) :
    groupByDay (l ++ [s]) = insertSample (groupByDay l) s := by
  unfold groupByDay
  rw [List.foldl_append]
  rfl

theorem groupByDay_temps (l : List FSample) :
    ∀ g ∈ groupByDay l,
      g.temps = (l.filter (fun x => dayKey x == g.key)).map FSample.temp := by
  induction l using List.reverseRecOn with
  | nil =>
    intro g hg
    simp [groupByDay] at hg
  | append_singleton l s ih =>
    intro g' hg'
    rw [groupByDay_append] at hg'
    have hnd : ((groupByDay l).map DayGroup.key).Nodup := by
      rw [groupByDay_keys]
      exact nodup_firstOccur _
    rcases insertSample_mem_description (groupByDay l) s hnd g' hg' with
      ⟨g, hgmem, hgkey, rfl⟩ | ⟨rfl, hnotin⟩ | ⟨hgmem, hne⟩
    · simp only [List.filter_append, List.map_append]
      rw [← ih g hgmem]
      have : (dayKey s == g.key) = true := by
        rw [beq_iff_eq]
        exact hgkey.symm
      simp [this]
    · have hnotl : dayKey s ∉ l.map dayKey := by
        rw [← mem_firstOccur, ← groupByDay_keys]
        exact hnotin
      have hfil : l.filter (fun x => dayKey x == dayKey s) = [] := by
        rw [List.filter_eq_nil_iff]
        intro a ha hbeq
        exact hnotl (by
          rw [beq_iff_eq] at hbeq
          rw [← hbeq]
          exact List.mem_map_of_mem _ ha)
      simp [List.filter_append, hfil]
    · rw [ih g' hgmem]
      have : (dayKey s == g'.key) = false := by
        rw [beq_eq_false_iff_ne]
        exact fun hk => hne hk.symm
      simp [List.filter_append, this]

theorem groupByDay_temps_ne_nil (l : List FSample) :
    ∀ g ∈ groupByDay l, g.temps ≠ [] := by
  intro g hg
  have hk : g.key ∈ (groupByDay l).map DayGroup.key := List.mem_map_of_mem _ hg
  rw [groupByDay_keys, mem_firstOccur] at hk
  obtain ⟨s, hs, hks⟩ := List.mem_map.mp hk
  rw [groupByDay_temps l g hg]
  intro hnil
  have hfil : l.filter (fun x => dayKey x == g.key) = [] := List.map_eq_nil_iff.mp hnil
  have : s ∈ l.filter (fun x => dayKey x == g.key) := by
    rw [List.mem_filter]
    exact ⟨hs, by rw [beq_iff_eq]; exact hks⟩
  rw [hfil] at this
  exact List.not_mem_nil s this

theorem foldl_min_le_init (ts : List ℚ) (t : ℚ) : ts.foldl min t ≤ t := by
  induction ts generalizing t with
  | nil => exact le_refl t
  | cons a ts ih => exact le_trans (ih (min t a)) (min_le_left t a)

theorem le_foldl_max_init (ts : List ℚ) (t : ℚ) : t ≤ ts.foldl max t := by
  induction ts generalizing t with
  | nil => exact le_refl t
  | cons a ts ih => exact le_trans (le_max_left t a) (ih (max t a))

theorem minTemps_le_maxTemps (ts : List ℚ) (h : ts ≠ []) :
    minTemps ts ≤ maxTemps ts := by
  cases ts with
  | nil => exact absurd rfl h
  | cons t ts => exact le_trans (foldl_min_le_init ts t) (le_foldl_max_init ts t)

theorem jround_mono {a b : ℚ} (h : a ≤ b) : jround a ≤ jround b :=
  Int.floor_le_floor (by linarith)

/-- C3: the daily aggregation groups samples by UTC calendar day in
first-encounter order (`groupByDay`'s keys are exactly the distinct day keys
in order of first occurrence, and each bucket's temps are exactly the temps of
that day's samples in original order), `dailyForecasts` skips exactly the
first encountered group and returns at most 4 subsequent groups in encounter
order, and every returned summary has `hi = round(max temps) ≥
lo = round(min temps)`. -/
theorem daily_aggregation_correct (l : List FSample) :
    (groupByDay l).map DayGroup.key = firstOccur (l.map dayKey) ∧
    (∀ g ∈ groupByDay l,
      g.temps = (l.filter (fun x => dayKey x == g.key)).map FSample.temp) ∧
    dailyForecasts l = (((groupByDay l).drop 1).take 4).map summarize ∧
    (dailyForecasts l).length ≤ 4 ∧
    (∀ d ∈ dailyForecasts l, d.lo ≤ d.hi) := by
  refine ⟨groupByDay_keys l, groupByDay_temps l, rfl, ?_, ?_⟩
  · unfold dailyForecasts
    rw [List.length_map]
    exact List.length_take_le _ _
  · intro d hd
    unfold dailyForecasts at hd
    obtain ⟨g, hg, rfl⟩ := List.mem_map.mp hd
    have h2 : g ∈ groupByDay l := List.mem_of_mem_drop (List.mem_of_mem_take hg)
    exact jround_mono (minTemps_le_maxTemps g.temps (groupByDay_temps_ne_nil l g h2))

theorem daily_aggregation_correct_witness :
    (⟨7, 5, "Rain", "light rain"⟩ : DaySummary).lo
      ≤ (⟨7, 5, "Rain", "light rain"⟩ : DaySummary).hi :=
  (daily_aggregation_correct demoSamples).2.2.2.2
    ⟨7, 5, "Rain", "light rain"⟩ (by
      have h : dailyForecasts demoSamples = [⟨7, 5, "Rain", "light rain"⟩] := by
        norm_num [dailyForecasts, groupByDay, insertSample, demoSamples, dayKey,
          summarize, maxTemps, minTemps, jround]
      rw [h]
      exact List.mem_singleton.mpr rfl)

end WeatherApp
